import Mathlib

/-!
Shallow embedding of the rmtt_base flight-control platform.

Numeric values are modelled over ℚ (the Python code computes with IEEE
doubles; all constants appearing in the verified properties are exact in ℚ).
Wall-clock reads (`time.time()`) are modelled as explicit `now` parameters;
logging calls are side-effect free and omitted.  Functions of the source that
an embedded function calls abstractly (a subclass's `compute_control`, the
transcendental library functions used by the ADRC controller) are passed in
as parameters, so every definition stays executable.
-/

set_option maxHeartbeats 1000000
set_option maxRecDepth 4000

namespace RMTT

/-- numpy's `np.clip(x, lo, hi)`: values below `lo` become `lo`, above `hi`
become `hi` (for `lo ≤ hi`). -/
def npClip (x lo hi : ℚ) : ℚ := min hi (max lo x)

/-- landing_state.py `sign(x)`: −1 / 0 / 1. -/
def signQ (x : ℚ) : ℚ := if x > 0 then 1 else if x < 0 then -1 else 0

/-- landing_state.py `sat(x, limit)`: `max(-limit, min(limit, x))`. -/
def sat (x limit : ℚ) : ℚ := max (-limit) (min limit x)

/-! ## controllers/base_controller.py: ControlCommand -/

/-- controllers/base_controller.py `ControlCommand`: four channel values plus
a timestamp; `__post_init__` clips every channel into [-100, 100]. -/
structure ControlCommand where
  timestamp : ℚ
  roll : ℚ
  pitch : ℚ
  throttle : ℚ
  yaw : ℚ
  deriving DecidableEq, Repr

/-- Construction of a `ControlCommand` including the `__post_init__` clamp
(`np.clip(v, -100, 100)` on each of the four channels). -/
def mkControlCommand (ts roll pitch throttle yaw : ℚ) : ControlCommand :=
  { timestamp := ts
    roll := npClip roll (-100) 100
    pitch := npClip pitch (-100) 100
    throttle := npClip throttle (-100) 100
    yaw := npClip yaw (-100) 100 }

/-! ## controllers/position_control/position_controller.py: PIDController -/

/-- position_controller.py `PIDGains`. -/
structure PIDGains where
  kp : ℚ
  ki : ℚ
  kd : ℚ
  max_integral : ℚ
  max_derivative : ℚ
  max_output : ℚ
  deriving DecidableEq, Repr

/-- position_controller.py `PIDController` internal state (`last_time` stores
the wall clock passed to `compute` as `now`). -/
structure PIDState where
  integral : ℚ
  last_error : ℚ
  last_time : ℚ
  first_run : Bool
  deriving DecidableEq, Repr

/-- Fresh `PIDController` internal state, as set by `__init__` and `reset`. -/
def PIDState.fresh : PIDState :=
  { integral := 0, last_error := 0, last_time := 0, first_run := true }

/-- position_controller.py `PIDController.compute(current_value, target_value,
dt)`.  Returns the updated internal state and the output.  If `dt ≤ 0` the
function returns 0 without touching the state.  Otherwise the integral
accumulates `error·dt` and is clipped to ±max_integral; the derivative is 0 on
the first run, else `kd·(error − last_error)/dt` clipped to ±max_derivative;
the summed output is clipped to ±max_output. -/
def PIDController.compute (g : PIDGains) (st : PIDState)
    (current_value target_value dt now : ℚ) : PIDState × ℚ :=
  if dt ≤ 0 then (st, 0)
  else
    let error := target_value - current_value
    let proportional := g.kp * error
    let integral1 := npClip (st.integral + error * dt) (-g.max_integral) g.max_integral
    let integralTerm := g.ki * integral1
    let derivAndFlag : ℚ × Bool :=
      if st.first_run then (0, false)
      else (npClip (g.kd * (error - st.last_error) / dt)
              (-g.max_derivative) g.max_derivative, st.first_run)
    let output := npClip (proportional + integralTerm + derivAndFlag.1)
      (-g.max_output) g.max_output
    ({ integral := integral1, last_error := error, last_time := now,
       first_run := derivAndFlag.2 }, output)

/-! ## controllers/attitude_control/attitude_controller.py: yaw error -/

/-- attitude_controller.py `AttitudeController._calculate_yaw_error`:
`error = target − current`, then a single wrap step: subtract 360 if the
error exceeds 180, add 360 if it is below −180. -/
def calculateYawError (current_yaw target_yaw : ℚ) : ℚ :=
  let error := target_yaw - current_yaw
  if error > 180 then error - 360
  else if error < -180 then error + 360
  else error

/-! ## controllers/position_control/trajectory_controller.py: square -/

/-- trajectory_controller.py `Waypoint`. -/
structure Waypoint where
  x_cm : ℚ
  y_cm : ℚ
  height_cm : ℚ
  yaw_deg : ℚ
  speed_cm_s : ℚ
  hold_time_s : ℚ
  tolerance_cm : ℚ
  deriving DecidableEq, Repr, Inhabited

/-- trajectory_controller.py `_generate_square_trajectory`, waypoint-building
part: the four corners at (center ± size/2) in the order right-upper,
left-upper, left-lower, right-lower, each as a waypoint with yaw 0, the given
speed, a 0.5 s hold and the configured tolerance; the first waypoint is then
appended again to close the loop.  The resulting list is stored in
`self.waypoints` and handed to `_generate_waypoint_trajectory`. -/
def squareWaypoints (size center_x center_y height speed tolerance : ℚ) :
    List Waypoint :=
  let half_size := size / 2
  let corners : List (ℚ × ℚ) :=
    [(center_x + half_size, center_y + half_size),
     (center_x - half_size, center_y + half_size),
     (center_x - half_size, center_y - half_size),
     (center_x + half_size, center_y - half_size)]
  let waypoints := corners.map (fun corner =>
    { x_cm := corner.1, y_cm := corner.2, height_cm := height,
      yaw_deg := 0, speed_cm_s := speed, hold_time_s := 1/2,
      tolerance_cm := tolerance })
  waypoints ++ [waypoints.headI]

/-! ## experiments/experiment_config.py: validate_parameters -/

/-- experiments/experiment_config.py module-level parameters that
`validate_parameters` reads. -/
structure ExperimentParams where
  experiment_cycles : ℚ
  target_height : ℚ
  hover_duration : ℚ
  descent_speed : ℚ
  final_height : ℚ
  deriving DecidableEq, Repr

/-- Default values of the parameters in experiment_config.py. -/
def defaultExperimentParams : ExperimentParams :=
  { experiment_cycles := 3, target_height := 150, hover_duration := 1,
    descent_speed := 1/5, final_height := 30 }

/-- experiment_config.py `validate_parameters()`: appends one error string per
violated condition, in source order, and returns the list. -/
def validate_parameters (p : ExperimentParams) : List String :=
  (if p.experiment_cycles ≤ 0 then ["实验周期数必须大于0"] else []) ++
  (if p.target_height ≤ p.final_height then ["目标高度必须大于最终高度"] else []) ++
  (if p.descent_speed ≤ 0 then ["下降速度必须大于0"] else []) ++
  (if p.hover_duration < 0 then ["悬停时间不能为负数"] else []) ++
  (if p.target_height > 500 then ["目标高度不应超过500cm以确保安全"] else []) ++
  (if p.final_height < 5 then ["最终高度不应低于5cm以确保安全"] else [])

/-! ## utils/safety.py: SafetyManager.check_flight_safety

The named constants come from `config.settings`, a module the repository
imports with `from config.settings import *` but whose file is not part of
the source tree; they are therefore carried as explicit parameters here. -/

/-- Modelled from the spec: the `config.settings` constants read by
`check_flight_safety` (`ENABLE_SAFETY_CHECKS`, `SPEED_LIMIT`,
`FLIGHT_ALTITUDE_LIMIT`, `BATTERY_CRITICAL_THRESHOLD`).  The spec (§4.3)
leaves the numeric defaults deployment-tunable, so they stay abstract. -/
structure SafetyConfig where
  enable_safety_checks : Bool
  speed_limit : ℚ
  flight_altitude_limit : ℚ
  battery_critical_threshold : ℚ
  deriving DecidableEq, Repr

/-- Python truthiness of the optional `value` argument (`if value and ...`):
`None` and `0` are falsy. -/
def pyTruthy : Option ℚ → Bool
  | none => false
  | some v => v ≠ 0

/-- utils/safety.py `SafetyManager.check_flight_safety(command, value)`.
`battery` is the (successful) `tello.get_battery()` probe result.  The
branch structure mirrors the source: an `if command in [up, down, left,
right, forward, back]` translation check, an `elif command in [cw, ccw]`
rotation check, then an `elif command == 'up'` altitude check (unreachable:
'up' is already consumed by the first branch), and finally the battery
check.  Raising `TelloSafetyError` is modelled as `Except.error`. -/
def check_flight_safety (cfg : SafetyConfig) (command : String)
    (value : Option ℚ) (battery : ℚ) : Except String Bool :=
  if cfg.enable_safety_checks = false then Except.ok true
  else
    let commandError : Option String :=
      if command ∈ ["up", "down", "left", "right", "forward", "back"] then
        (if pyTruthy value ∧ (value.getD 0) > cfg.speed_limit then
          some "移动距离超过安全限制" else none)
      else if command ∈ ["cw", "ccw"] then
        (if pyTruthy value ∧ |value.getD 0| > 360 then
          some "旋转角度超过安全限制" else none)
      else if command = "up" then
        (if pyTruthy value ∧ (value.getD 0) > cfg.flight_altitude_limit then
          some "飞行高度超过安全限制" else none)
      else none
    match commandError with
    | some e => Except.error e
    | none =>
      if battery ≤ cfg.battery_critical_threshold then
        Except.error "电池电量过低，拒绝执行飞行命令"
      else Except.ok true

/-! ## controllers/base_controller.py: BaseController -/

/-- base_controller.py `ControllerState`. -/
inductive ControllerState where
  | inactive
  | active
  | error
  | emergencyStop
  deriving DecidableEq, Repr

/-- base_controller.py `SensorData`. -/
structure SensorData where
  timestamp : ℚ
  height_cm : ℚ
  tof_distance_cm : ℚ
  barometer_cm : ℚ
  pitch_deg : ℚ
  roll_deg : ℚ
  yaw_deg : ℚ
  vgx_cm_s : ℚ
  vgy_cm_s : ℚ
  vgz_cm_s : ℚ
  agx_0001g : ℚ
  agy_0001g : ℚ
  agz_0001g : ℚ
  battery_percent : ℚ
  temperature_deg : ℚ
  wifi_snr : ℤ
  deriving DecidableEq, Repr

/-- base_controller.py `BaseController` state.  The abstract subclass methods
and overridable hooks are carried as data: `compute_control` may raise (an
`Except.error` models a Python exception escaping the subclass method);
`on_activate`/`on_deactivate` return a success flag or raise.  Wall-clock
performance sums (`total_control_time`, `max_control_time`) are omitted;
`last_update_time` records the `now` passed to `update`. -/
structure BController where
  name : String
  state : ControllerState
  has_target : Bool
  current_sensor_data : Option SensorData
  last_control_command : Option ControlCommand
  last_update_time : ℚ
  total_iterations : ℕ
  compute_control : SensorData → Except String ControlCommand
  on_activate : Except String Bool
  on_deactivate : Except String Bool

/-- base_controller.py `BaseController.activate()`: only from the INACTIVE
state is the `_on_activate` hook invoked; on hook success the state becomes
ACTIVE and the call returns True; on hook failure it returns False; a hook
exception sets the state to ERROR and returns False.  In every non-INACTIVE
state the method logs a warning and returns False without touching state. -/
def BController.activate (c : BController) : BController × Bool :=
  if c.state = ControllerState.inactive then
    match c.on_activate with
    | Except.ok true => ({ c with state := ControllerState.active }, true)
    | Except.ok false => (c, false)
    | Except.error _ => ({ c with state := ControllerState.error }, false)
  else (c, false)

/-- base_controller.py `BaseController.deactivate()`: symmetric to
`activate`, acting only from the ACTIVE state via `_on_deactivate`. -/
def BController.deactivate (c : BController) : BController × Bool :=
  if c.state = ControllerState.active then
    match c.on_deactivate with
    | Except.ok true => ({ c with state := ControllerState.inactive }, true)
    | Except.ok false => (c, false)
    | Except.error _ => ({ c with state := ControllerState.error }, false)
  else (c, false)

/-- base_controller.py `BaseController.update(sensor_data)`: returns None if
the state is not ACTIVE or no target is set; otherwise stores the sensor
snapshot and calls `compute_control` inside `try`, recording the command and
the performance counters on success.  The `except` branch catches any
exception raised by `compute_control`, sets the state to ERROR and returns
None — the sensor snapshot stored before the raise stays stored. -/
def BController.update (c : BController) (sd : SensorData) (now : ℚ) :
    BController × Option ControlCommand :=
  if c.state ≠ ControllerState.active then (c, none)
  else if c.has_target = false then (c, none)
  else
    match c.compute_control sd with
    | Except.ok cmd =>
        ({ c with current_sensor_data := some sd,
                  last_control_command := some cmd,
                  last_update_time := now,
                  total_iterations := c.total_iterations + 1 }, some cmd)
    | Except.error _ =>
        ({ c with current_sensor_data := some sd,
                  state := ControllerState.error }, none)

/-- The manager calls `self.active_controller.update(...)` inside a
`try`/`except` of its own.  `update` wraps its whole body in `try`/`except`
already, so no exception ever escapes it: this wrapper makes the type of that
call site explicit (the `.error` constructor is never produced). -/
def BController.updateResult (c : BController) (sd : SensorData) (now : ℚ) :
    Except String (BController × Option ControlCommand) :=
  Except.ok (c.update sd now)

/-! ## controllers/controller_manager.py: ControllerManager -/

/-- controller_manager.py `ControlMode`. -/
inductive ControlMode where
  | manual
  | attitude
  | position
  | velocity
  | trajectory
  | emergency
  deriving DecidableEq, Repr

/-- controller_manager.py `ControllerManagerConfig`. -/
structure ControllerManagerConfig where
  update_frequency_hz : ℚ
  controller_timeout_s : ℚ
  safety_check_enabled : Bool
  auto_fallback_enabled : Bool
  fallback_controller : String
  data_logging_enabled : Bool
  max_control_error_count : ℕ

/-- Default `ControllerManagerConfig` values. -/
def defaultManagerConfig : ControllerManagerConfig :=
  { update_frequency_hz := 50, controller_timeout_s := 1,
    safety_check_enabled := true, auto_fallback_enabled := true,
    fallback_controller := "attitude", data_logging_enabled := true,
    max_control_error_count := 5 }

/-- Lookup in an insertion-ordered registry (Python dict). -/
def lookupCtrl : List (String × BController) → String → Option BController
  | [], _ => none
  | q :: rest, n => if q.1 = n then some q.2 else lookupCtrl rest n

/-- Replace the entry of name `n` in the registry (Python object mutation is
visible through the dict; the registry entry is the single source here). -/
def updateCtrl : List (String × BController) → String → BController →
    List (String × BController)
  | [], _, _ => []
  | q :: rest, n, c => (if q.1 = n then (n, c) else q) :: updateCtrl rest n c

/-- Lookup in the `controller_errors` dict. -/
def lookupErr : List (String × ℕ) → String → Option ℕ
  | [], _ => none
  | q :: rest, n => if q.1 = n then some q.2 else lookupErr rest n

/-- Overwrite one `controller_errors` entry. -/
def setErr (es : List (String × ℕ)) (n : String) (v : ℕ) :
    List (String × ℕ) :=
  es.map (fun p => if p.1 = n then (n, v) else p)

/-- Increment one `controller_errors` entry (`+= 1` on an existing key). -/
def incErr (es : List (String × ℕ)) (n : String) : List (String × ℕ) :=
  es.map (fun p => if p.1 = n then (n, p.2 + 1) else p)

/-- controller_manager.py `ControllerManager` state.  Threads, callbacks and
wall-clock timing statistics are omitted; `active_controller` holds the name
of the active registry entry (Python holds the object reference, which is
the same object the registry maps that name to). -/
structure CManager where
  config : ControllerManagerConfig
  controllers : List (String × BController)
  active_controller : Option String
  current_control_mode : ControlMode
  latest_sensor_data : Option SensorData
  latest_control_command : Option ControlCommand
  controller_errors : List (String × ℕ)
  last_successful_control_time : ℚ
  error_count : ℕ
  total_control_cycles : ℕ

/-- controller_manager.py mode→controller-name map used by
`switch_control_mode` when no explicit name is given. -/
def modeControllerMap : ControlMode → Option String
  | ControlMode.attitude => some "attitude"
  | ControlMode.position => some "position"
  | ControlMode.velocity => some "velocity"
  | ControlMode.trajectory => some "trajectory"
  | _ => none

/-- First step of `switch_control_mode`: deactivate the currently active
controller (if any) and clear `active_controller`. -/
def deactivateCurrent (m : CManager) : CManager :=
  match m.active_controller with
  | none => m
  | some nm =>
    match lookupCtrl m.controllers nm with
    | none => { m with active_controller := none }
    | some c =>
      { m with controllers := updateCtrl m.controllers nm (c.deactivate).1,
               active_controller := none }

/-- Name resolution in `switch_control_mode`: an explicit truthy
`controller_name` wins, otherwise the mode→name map is consulted. -/
def resolveTargetName (mode : ControlMode) (controller_name : Option String) :
    Option String :=
  match controller_name with
  | some n => if n = "" then modeControllerMap mode else some n
  | none => modeControllerMap mode

/-- controller_manager.py `ControllerManager.switch_control_mode(mode,
controller_name)`: deactivates the active controller and clears the active
slot, then sets `current_control_mode := mode`; MANUAL and EMERGENCY succeed
immediately; for the four flight modes the resolved controller must exist
and `activate()` must succeed, else the call returns False (with the
deactivation and the mode assignment already performed). -/
def switch_control_mode (m : CManager) (mode : ControlMode)
    (controller_name : Option String) : CManager × Bool :=
  let m1 := deactivateCurrent m
  let m2 := { m1 with current_control_mode := mode }
  if mode = ControlMode.manual then (m2, true)
  else if mode = ControlMode.emergency then (m2, true)
  else
    match resolveTargetName mode controller_name with
    | none => (m2, false)
    | some tname =>
      if tname = "" then (m2, false)
      else
        match lookupCtrl m2.controllers tname with
        | none => (m2, false)
        | some tc =>
          let act := tc.activate
          let m3 := { m2 with controllers := updateCtrl m2.controllers tname act.1 }
          if act.2 then ({ m3 with active_controller := some tname }, true)
          else (m3, false)

/-- controller_manager.py `_perform_controller_fallback`: switch to the
configured fallback controller when registered (using its mapped mode,
defaulting to MANUAL for unmapped names), else to MANUAL. -/
def perform_controller_fallback (m : CManager) : CManager :=
  let fb := m.config.fallback_controller
  if (lookupCtrl m.controllers fb).isSome then
    let fmode :=
      if fb = "attitude" then ControlMode.attitude
      else if fb = "position" then ControlMode.position
      else if fb = "velocity" then ControlMode.velocity
      else ControlMode.manual
    (switch_control_mode m fmode (some fb)).1
  else (switch_control_mode m ControlMode.manual none).1

/-- controller_manager.py `_perform_safety_checks`: controller-timeout,
battery and attitude-angle checks; any failure force-switches to EMERGENCY
mode and fails the cycle. -/
def perform_safety_checks (m : CManager) (sd : SensorData) (now : ℚ) :
    CManager × Bool :=
  if now - m.last_successful_control_time > m.config.controller_timeout_s then
    ((switch_control_mode m ControlMode.emergency none).1, false)
  else if sd.battery_percent < 10 then
    ((switch_control_mode m ControlMode.emergency none).1, false)
  else if |sd.pitch_deg| > 60 ∨ |sd.roll_deg| > 60 then
    ((switch_control_mode m ControlMode.emergency none).1, false)
  else (m, true)

/-- controller_manager.py `_execute_control_cycle`: skips when no sensor data
is cached; runs the safety gate when enabled; MANUAL and EMERGENCY emit an
all-zero command; otherwise the active controller's `update` runs under
`try`: a command resets that controller's error counter and refreshes
`last_successful_control_time`; a raised exception (the `Except.error` case,
which `updateResult` never actually produces) increments the counter and,
with auto-fallback enabled and the counter above 3, triggers the fallback. -/
def execute_control_cycle (m : CManager) (now : ℚ) : CManager :=
  match m.latest_sensor_data with
  | none => m
  | some sd =>
    let gate : CManager × Bool :=
      if m.config.safety_check_enabled then perform_safety_checks m sd now
      else (m, true)
    if gate.2 = false then gate.1
    else
      let m1 := gate.1
      let step : CManager × Option ControlCommand :=
        if m1.current_control_mode = ControlMode.manual then
          (m1, some (mkControlCommand now 0 0 0 0))
        else if m1.current_control_mode = ControlMode.emergency then
          (m1, some (mkControlCommand now 0 0 0 0))
        else
          match m1.active_controller with
          | none => (m1, none)
          | some nm =>
            match lookupCtrl m1.controllers nm with
            | none => (m1, none)
            | some c =>
              match c.updateResult sd now with
              | Except.ok res =>
                let m2 := { m1 with controllers := updateCtrl m1.controllers nm res.1 }
                match res.2 with
                | some cmd =>
                  ({ m2 with controller_errors := setErr m2.controller_errors nm 0,
                             last_successful_control_time := now }, some cmd)
                | none => (m2, none)
              | Except.error _ =>
                let m2 := { m1 with controller_errors := incErr m1.controller_errors nm }
                let m3 :=
                  if m2.config.auto_fallback_enabled ∧
                      (lookupErr m2.controller_errors nm).getD 0 > 3 then
                    perform_controller_fallback m2
                  else m2
                (m3, none)
      let m4 :=
        match step.2 with
        | some cmd => { step.1 with latest_control_command := some cmd }
        | none => step.1
      { m4 with total_control_cycles := m4.total_control_cycles + 1 }

/-! ## controllers/landing_experiment/adrc_controller.py: ADRCController

The controller computes with `sin`, `cos`, `sqrt`, `arcsin`, `arctan2` and a
real-exponent `pow`.  Those library functions are abstracted as a parameter
record so every definition stays executable; the verified bound (the final
throttle window) holds for every interpretation of them. -/

/-- Three-component vector (numpy 3-arrays of the landing suite). -/
structure Vec3 where
  x : ℚ
  y : ℚ
  z : ℚ
  deriving DecidableEq, Repr

/-- Zero vector (`np.zeros(3)`). -/
def Vec3.zero : Vec3 := { x := 0, y := 0, z := 0 }

/-- Abstract transcendental operations used by the ADRC controller
(`np.sin`, `np.cos`, `np.sqrt`, `np.arcsin`, `np.arctan2`, `pow`). -/
structure TransOps where
  sinQ : ℚ → ℚ
  cosQ : ℚ → ℚ
  sqrtQ : ℚ → ℚ
  asinQ : ℚ → ℚ
  atan2Q : ℚ → ℚ → ℚ
  powQ : ℚ → ℚ → ℚ

/-- Interpretation of the transcendental operations that sends everything to
0 (used to instantiate universally quantified statements on concrete data). -/
def TransOps.trivial : TransOps :=
  { sinQ := fun _ => 0, cosQ := fun _ => 0, sqrtQ := fun _ => 0,
    asinQ := fun _ => 0, atan2Q := fun _ _ => 0, powQ := fun _ _ => 0 }

/-- adrc_controller.py parameters (constructor defaults overwritable by
`init`), including the throttle-mapping selector `method_choose`. -/
structure ADRCParams where
  quad_mass : ℚ
  hov_percent : ℚ
  max_tilt_angle : ℚ
  max_thrust : ℚ
  min_thrust : ℚ
  int_max_xy : ℚ
  int_max_z : ℚ
  k : ℚ
  k1 : ℚ
  k2 : ℚ
  c1 : ℚ
  c2 : ℚ
  lambda_D : ℚ
  beta_max : ℚ
  gamma_param : ℚ
  lambda_adapt : ℚ
  sigma_adapt : ℚ
  omega_star : ℚ
  t1 : ℚ
  t2 : ℚ
  l_eso : ℚ
  k_p : ℚ
  k_i : ℚ
  k_d : ℚ
  method_choose : ℕ

/-- adrc_controller.py constructor parameter values. -/
def defaultADRCParams : ADRCParams :=
  { quad_mass := 5/2, hov_percent := 1/2, max_tilt_angle := 10,
    max_thrust := 1, min_thrust := 1/10, int_max_xy := 1/2, int_max_z := 1/2,
    k := 4/5, k1 := -3/20, k2 := -3, c1 := 3/2, c2 := 3/5, lambda_D := 1,
    beta_max := 1, gamma_param := 1/5, lambda_adapt := 4/5,
    sigma_adapt := 9/10, omega_star := 1/50, t1 := 1/50, t2 := 1/25,
    l_eso := 5, k_p := 2, k_i := 3/10, k_d := 2, method_choose := 1 }

/-- adrc_controller.py mutable state (constructor zero-initialized). -/
structure ADRCState where
  epsilon_hat1 : ℚ
  epsilon_hat2 : ℚ
  epsilon_hat3 : ℚ
  epsilon_bar1 : ℚ
  epsilon_bar2 : ℚ
  epsilon_beta1 : ℚ
  epsilon_beta2 : ℚ
  integral_term : ℚ
  epsilon_n1 : ℚ
  epsilon_n2 : ℚ
  epsilon_n1_init : ℚ
  epsilon_n2_init : ℚ
  omega_hat : List ℚ
  initialized : Bool
  integral_term_pid : Vec3
  deriving DecidableEq, Repr

/-- Zero-initialized `ADRCState` (the constructor). -/
def ADRCState.init : ADRCState :=
  { epsilon_hat1 := 0, epsilon_hat2 := 0, epsilon_hat3 := 0,
    epsilon_bar1 := 0, epsilon_bar2 := 0, epsilon_beta1 := 0,
    epsilon_beta2 := 0, integral_term := 0, epsilon_n1 := 0, epsilon_n2 := 0,
    epsilon_n1_init := 0, epsilon_n2_init := 0,
    omega_hat := List.replicate 9 0, initialized := false,
    integral_term_pid := Vec3.zero }

/-- landing_state.py `DesiredState` (quaternion omitted: unused by the ADRC
update path). -/
structure DesiredState where
  pos : Vec3
  vel : Vec3
  acc : Vec3
  yaw : ℚ
  deriving DecidableEq, Repr

/-- landing_state.py `CurrentState` (quaternion omitted likewise). -/
structure CurrentState where
  pos : Vec3
  vel : Vec3
  acc : Vec3
  yaw : ℚ
  deriving DecidableEq, Repr

/-- landing_state.py `ControlOutput` (timestamp is the `now` argument). -/
structure ControlOutput where
  timestamp : ℚ
  roll : ℚ
  pitch : ℚ
  yaw : ℚ
  thrust : ℚ
  deriving DecidableEq, Repr

/-- adrc_controller.py throttle limiting (the two sequential `if`s at the end
of `update`): raise the throttle to 0.3 when below, then lower it to 0.7 when
above. -/
def throttleLimit (x : ℚ) : ℚ :=
  let t1 := if x < 3/10 then 3/10 else x
  if t1 > 7/10 then 7/10 else t1

/-- adrc_controller.py `compute_variable_exponent(epsilon)`. -/
def compute_variable_exponent (p : ADRCParams) (ops : TransOps) (eps : ℚ) : ℚ :=
  if |eps| < 1/1000000 then 1
  else
    let beta_i := 1 + min p.beta_max (ops.powQ |eps| p.gamma_param) *
      (if |eps| > 1 then 1 else -1)
    max (1/10) (min beta_i (p.beta_max + 1))

/-- adrc_controller.py `compute_basis_functions(z, z_dot)`: the nine basis
values [1, sin z, sin ż, cos z, cos ż, sin 2z, sin 2ż, cos 2z, cos 2ż]. -/
def compute_basis_functions (ops : TransOps) (z z_dot : ℚ) : List ℚ :=
  [1, ops.sinQ z, ops.sinQ z_dot, ops.cosQ z, ops.cosQ z_dot,
   ops.sinQ (2 * z), ops.sinQ (2 * z_dot), ops.cosQ (2 * z),
   ops.cosQ (2 * z_dot)]

/-- adrc_controller.py `compute_adaptive_model(dt)`: returns the model output
`f_a = Σ ω_i·φ_i` and the updated weight vector
`ω_i += dt·(λ·e·φ_i − σ·λ·|e|·ω_i)` with `e = epsilon_bar2 − epsilon_n2`. -/
def compute_adaptive_model (p : ADRCParams) (ops : TransOps) (st : ADRCState)
    (des : DesiredState) (cur : CurrentState) (dt : ℚ) : ℚ × List ℚ :=
  let z := cur.pos.z
  let z_dot := st.epsilon_bar2 + des.vel.z
  let phi := compute_basis_functions ops z z_dot
  let f_a := (List.zipWith (fun w ph => w * ph) st.omega_hat phi).sum
  let e_n2_bar := st.epsilon_bar2 - st.epsilon_n2
  let omega := List.zipWith
    (fun w ph =>
      w + (p.lambda_adapt * e_n2_bar * ph -
        p.sigma_adapt * p.lambda_adapt * |e_n2_bar| * w) * dt)
    st.omega_hat phi
  (f_a, omega)

/-- adrc_controller.py `ADRCController.update(dt)`.  Follows the source
statement by statement; returns the updated state and the `ControlOutput`.
The final two `if`s clamp the throttle channel into [0.3, 0.7]. -/
def ADRC.update (p : ADRCParams) (ops : TransOps) (st : ADRCState)
    (des : DesiredState) (cur : CurrentState) (dt now : ℚ) :
    ADRCState × ControlOutput :=
  let eps_z := cur.pos.z - des.pos.z
  let st0 :=
    if st.initialized then st
    else { st with epsilon_n1 := eps_z,
                   epsilon_n2 := cur.vel.z - des.vel.z,
                   epsilon_n1_init := eps_z,
                   epsilon_n2_init := cur.vel.z - des.vel.z,
                   epsilon_bar1 := 0, epsilon_bar2 := 0, integral_term := 0,
                   integral_term_pid := Vec3.zero, initialized := true }
  let beta1 := compute_variable_exponent p ops st0.epsilon_n1
  let beta2 := compute_variable_exponent p ops st0.epsilon_n2
  let eb1 :=
    if |st0.epsilon_n1| > 1/1000000 then
      signQ st0.epsilon_n1 * ops.powQ |st0.epsilon_n1| beta1
    else st0.epsilon_n1
  let eb2 :=
    if |st0.epsilon_n2| > 1/1000000 then
      signQ st0.epsilon_n2 * ops.powQ |st0.epsilon_n2| beta2
    else st0.epsilon_n2
  let s := p.c1 * st0.epsilon_n1 + p.c2 * st0.epsilon_n2 +
    p.lambda_D * st0.integral_term -
    p.c1 * st0.epsilon_n1_init - p.c2 * st0.epsilon_n2_init
  let integral_term := st0.integral_term + (p.c1 * eb1 + p.c2 * eb2) * dt
  let u_n := -(p.quad_mass * p.k / p.c2) * s -
    (p.quad_mass * p.c1 / p.c2) * st0.epsilon_n2 +
    p.quad_mass * (49/5) + p.quad_mass * des.acc.z -
    p.lambda_D * p.quad_mass * p.c1 / p.c2 * eb1 -
    p.lambda_D * p.quad_mass * eb2
  let e_n := eps_z - st0.epsilon_n1
  let e_n2 := st0.epsilon_bar2 - st0.epsilon_n2
  let u_f := p.quad_mass * p.k1 * e_n + p.quad_mass * p.k2 * e_n2
  let adaptive := compute_adaptive_model p ops st0 des cur dt
  let f_a := adaptive.1
  let omega := adaptive.2
  let max_omega_change :=
    (List.zipWith (fun w w0 => |w - w0|) omega st0.omega_hat).foldl max 0
  let p_t : ℚ := if max_omega_change > p.omega_star then 0 else 1
  let f_z_hat := f_a + p_t * st0.epsilon_hat3
  let u_c := -p.quad_mass * f_z_hat
  let u_z := u_n + u_f + u_c
  let e_e1 := eps_z - st0.epsilon_hat1
  let epsilon_hat1 := st0.epsilon_hat1 +
    (st0.epsilon_hat2 + 3 * p.l_eso * e_e1) * dt
  let epsilon_hat2 := st0.epsilon_hat2 +
    (-(49/5) + (1 / p.quad_mass) * u_z + f_z_hat - des.acc.z +
      3 * p.l_eso * p.l_eso * e_e1) * dt
  let epsilon_hat3 := st0.epsilon_hat3 +
    (p.l_eso * p.l_eso * p.l_eso * e_e1) * dt
  let epsilon_bar1 := st0.epsilon_bar1 + st0.epsilon_bar2 * dt
  let epsilon_bar2 := st0.epsilon_bar2 +
    (-(1 / (p.t1 * p.t2)) * (st0.epsilon_bar1 - eps_z) -
      (p.t1 + p.t2) / (p.t1 * p.t2) * st0.epsilon_bar2) * dt
  let epsilon_n1 := st0.epsilon_n1 + st0.epsilon_n2 * dt
  let epsilon_n2 := st0.epsilon_n2 +
    (-(49/5) + (1 / p.quad_mass) * u_n - des.acc.z) * dt
  let pos_e : Vec3 :=
    { x := sat (des.pos.x - cur.pos.x) 3, y := sat (des.pos.y - cur.pos.y) 3,
      z := sat (des.pos.z - cur.pos.z) 3 }
  let vel_e : Vec3 :=
    { x := sat (des.vel.x - cur.vel.x) 3, y := sat (des.vel.y - cur.vel.y) 3,
      z := sat (des.vel.z - cur.vel.z) 3 }
  let int_x :=
    if |pos_e.x| < 1/5 then
      sat (st0.integral_term_pid.x + pos_e.x * dt) p.int_max_xy
    else 0
  let int_y :=
    if |pos_e.y| < 1/5 then
      sat (st0.integral_term_pid.y + pos_e.y * dt) p.int_max_xy
    else 0
  let int_z :=
    if |pos_e.z| < 1/2 then
      sat (st0.integral_term_pid.z + pos_e.z * dt) p.int_max_z
    else 0
  let des_acc_x := des.acc.x + p.k_p * pos_e.x + p.k_d * vel_e.x + p.k_i * int_x
  let des_acc_y := des.acc.y + p.k_p * pos_e.y + p.k_d * vel_e.y + p.k_i * int_y
  let u_x0 := des_acc_x * p.quad_mass
  let u_y0 := des_acc_y * p.quad_mass
  let fallback := |u_z| < 1/100
  let u_z1 := if fallback then (1/2) * p.quad_mass * (49/5) else u_z
  let u_x := if fallback then 0 else u_x0
  let u_y := if fallback then 0 else u_y0
  let u_total := ops.sqrtQ (u_x * u_x + u_y * u_y + u_z1 * u_z1)
  let thrust_des :=
    if |u_total / p.quad_mass| < 1/1000000 then p.quad_mass * (49/5)
    else u_total
  let yaw_out := des.yaw
  let roll_out := ops.asinQ (sat
    ((ops.sinQ yaw_out * u_x - ops.cosQ yaw_out * u_y) /
      (thrust_des / p.quad_mass)) (99/100))
  let pitch_out := ops.atan2Q
    (ops.cosQ yaw_out * u_x + ops.sinQ yaw_out * u_y) u_z1
  let throttle0 :=
    if p.method_choose = 1 then
      thrust_des / (p.quad_mass * (49/5) / p.hov_percent)
    else if p.method_choose = 2 then
      let thr_k := (5/2 * p.quad_mass * (49/5) - p.quad_mass * (49/5)) /
        (1 - p.hov_percent)
      let thr_b := 5/2 * p.quad_mass * (49/5) - thr_k * 1
      (thrust_des - thr_b) / thr_k
    else thrust_des / (p.quad_mass * (49/5) / p.hov_percent)
  let throttle2 := throttleLimit throttle0
  ({ st0 with integral_term := integral_term, omega_hat := omega,
              epsilon_beta1 := eb1, epsilon_beta2 := eb2,
              epsilon_hat1 := epsilon_hat1, epsilon_hat2 := epsilon_hat2,
              epsilon_hat3 := epsilon_hat3, epsilon_bar1 := epsilon_bar1,
              epsilon_bar2 := epsilon_bar2, epsilon_n1 := epsilon_n1,
              epsilon_n2 := epsilon_n2,
              integral_term_pid := { x := int_x, y := int_y, z := int_z } },
   { timestamp := now, roll := roll_out, pitch := pitch_out, yaw := yaw_out,
     thrust := throttle2 })

/-- Run the ADRC controller over a sequence of control ticks (the experiment
orchestrator calls `set_desired_state`/`set_current_state`/`update(dt)` once
per tick), collecting every emitted output. -/
def ADRC.runTicks (p : ADRCParams) (ops : TransOps) (st : ADRCState)
    (ticks : List (DesiredState × CurrentState × ℚ)) :
    ADRCState × List ControlOutput :=
  match ticks with
  | [] => (st, [])
  | t :: rest =>
    let step := ADRC.update p ops st t.1 t.2.1 t.2.2 0
    let tail := ADRC.runTicks p ops step.1 rest
    (tail.1, step.2 :: tail.2)

/-! ## Concrete instances used to instantiate the verified properties -/

/-- Pure-proportional PID gain set (kp=1, ki=0, kd=0, max_output=100, the
other limits at their dataclass defaults). -/
def proportionalGains : PIDGains :=
  { kp := 1, ki := 0, kd := 0, max_integral := 100, max_derivative := 50,
    max_output := 100 }

/-- A safety configuration with checks enabled, speed/distance limit 500,
altitude limit 100 and battery critical threshold 20. -/
def deadAltCfg : SafetyConfig :=
  { enable_safety_checks := true, speed_limit := 500,
    flight_altitude_limit := 100, battery_critical_threshold := 20 }

/-- The property that two consecutive square corners differ by exactly
`size` in one axis and not at all in the other. -/
def axisAlignedStep (size : ℚ) (a b : ℚ × ℚ) : Prop :=
  (|b.1 - a.1| = size ∧ b.2 = a.2) ∨ (b.1 = a.1 ∧ |b.2 - a.2| = size)

/-- A benign telemetry snapshot: level attitude, 80 % battery. -/
def goodSensorData : SensorData :=
  { timestamp := 0, height_cm := 100, tof_distance_cm := 100,
    barometer_cm := 100, pitch_deg := 0, roll_deg := 0, yaw_deg := 0,
    vgx_cm_s := 0, vgy_cm_s := 0, vgz_cm_s := 0, agx_0001g := 0,
    agy_0001g := 0, agz_0001g := 0, battery_percent := 80,
    temperature_deg := 25, wifi_snr := 90 }

/-- An active position controller whose `compute_control` raises on every
call. -/
def raisingController : BController :=
  { name := "position", state := ControllerState.active, has_target := true,
    current_sensor_data := none, last_control_command := none,
    last_update_time := 0, total_iterations := 0,
    compute_control := fun _ => Except.error "compute failure",
    on_activate := Except.ok true, on_deactivate := Except.ok true }

/-- An inactive, well-behaved attitude controller registered as the
fallback. -/
def attitudeIdleController : BController :=
  { name := "attitude", state := ControllerState.inactive,
    has_target := true, current_sensor_data := none,
    last_control_command := none, last_update_time := 0,
    total_iterations := 0,
    compute_control := fun _ => Except.ok (mkControlCommand 0 0 0 0 0),
    on_activate := Except.ok true, on_deactivate := Except.ok true }

/-- Manager in POSITION mode with the default configuration (auto-fallback
on, fallback "attitude" registered), the raising controller active, and
fresh telemetry cached. -/
def fallbackStart : CManager :=
  { config := defaultManagerConfig,
    controllers := [("position", raisingController),
                    ("attitude", attitudeIdleController)],
    active_controller := some "position",
    current_control_mode := ControlMode.position,
    latest_sensor_data := some goodSensorData,
    latest_control_command := none,
    controller_errors := [("position", 0), ("attitude", 0)],
    last_successful_control_time := 0, error_count := 0,
    total_control_cycles := 0 }

/-- The manager after 4 consecutive 50 Hz control cycles in which the active
controller's `compute_control` raises every time. -/
def fallbackAfter4 : CManager :=
  execute_control_cycle
    (execute_control_cycle
      (execute_control_cycle
        (execute_control_cycle fallbackStart (1/50)) (2/50)) (3/50)) (4/50)

/-- An active, well-behaved position controller (used to observe the
deactivation performed by a failing mode switch). -/
def activePosController : BController :=
  { name := "position", state := ControllerState.active, has_target := true,
    current_sensor_data := none, last_control_command := none,
    last_update_time := 0, total_iterations := 0,
    compute_control := fun _ => Except.ok (mkControlCommand 0 0 0 0 0),
    on_activate := Except.ok true, on_deactivate := Except.ok true }

/-- Manager in POSITION mode whose registry holds only the position
controller, so a switch to ATTITUDE mode cannot resolve a controller. -/
def switchFailManager : CManager :=
  { config := defaultManagerConfig,
    controllers := [("position", activePosController)],
    active_controller := some "position",
    current_control_mode := ControlMode.position,
    latest_sensor_data := none, latest_control_command := none,
    controller_errors := [("position", 0)],
    last_successful_control_time := 0, error_count := 0,
    total_control_cycles := 0 }

/-- All-zero desired state (rest at the origin). -/
def zeroDesired : DesiredState :=
  { pos := Vec3.zero, vel := Vec3.zero, acc := Vec3.zero, yaw := 0 }

/-- All-zero current state (rest at the origin). -/
def zeroCurrent : CurrentState :=
  { pos := Vec3.zero, vel := Vec3.zero, acc := Vec3.zero, yaw := 0 }

/-! ## Helper lemmas -/

/-- Upper bound of `np.clip`. -/
theorem npClip_le (x lo hi : ℚ) : npClip x lo hi ≤ hi :=
  min_le_left _ _

/-- Lower bound of `np.clip` (for a non-degenerate interval). -/
theorem le_npClip (x : ℚ) {lo hi : ℚ} (h : lo ≤ hi) : lo ≤ npClip x lo hi :=
  le_min h (le_max_left _ _)

/-- `np.clip` fixes values already inside the interval. -/
theorem npClip_eq_self {x lo hi : ℚ} (h1 : lo ≤ x) (h2 : x ≤ hi) :
    npClip x lo hi = x := by
  unfold npClip
  rw [max_eq_right h1, min_eq_right h2]

/-! ## Claim theorems -/

/-- C1.  Constructing a `ControlCommand` always clamps all four channel
fields into [-100, 100] (out-of-range inputs are saturated, never rejected),
and re-constructing a command from the fields of an already-constructed one
is the identity (the clamp is idempotent). -/
theorem control_command_clamped_and_idempotent (ts r p t y : ℚ) :
    (-100 ≤ (mkControlCommand ts r p t y).roll ∧
      (mkControlCommand ts r p t y).roll ≤ 100) ∧
    (-100 ≤ (mkControlCommand ts r p t y).pitch ∧
      (mkControlCommand ts r p t y).pitch ≤ 100) ∧
    (-100 ≤ (mkControlCommand ts r p t y).throttle ∧
      (mkControlCommand ts r p t y).throttle ≤ 100) ∧
    (-100 ≤ (mkControlCommand ts r p t y).yaw ∧
      (mkControlCommand ts r p t y).yaw ≤ 100) ∧
    mkControlCommand ts (mkControlCommand ts r p t y).roll
      (mkControlCommand ts r p t y).pitch
      (mkControlCommand ts r p t y).throttle
      (mkControlCommand ts r p t y).yaw = mkControlCommand ts r p t y := by
  have hb : ((-100 : ℚ)) ≤ 100 := by norm_num
  refine ⟨⟨le_npClip _ hb, npClip_le _ _ _⟩, ⟨le_npClip _ hb, npClip_le _ _ _⟩,
    ⟨le_npClip _ hb, npClip_le _ _ _⟩, ⟨le_npClip _ hb, npClip_le _ _ _⟩, ?_⟩
  have he : ∀ x : ℚ, npClip (npClip x (-100) 100) (-100) 100 =
      npClip x (-100) 100 :=
    fun x => npClip_eq_self (le_npClip _ hb) (npClip_le _ _ _)
  dsimp only [mkControlCommand]
  rw [he, he, he, he]

/-- C4.  The single-axis PID `compute(current, target, dt)`: with dt ≤ 0 it
returns 0 and leaves the whole internal state unchanged; with dt > 0 it
returns the clamp to ±max_output of kp·error plus ki times the ±max_integral
clamp of the accumulated integral plus the ±max_derivative-clamped derivative
term (0 on the first run), updating the state accordingly.  In the pure
proportional instance kp=1, ki=0, kd=0, max_output=100, `compute(0, 10, 0.1)`
returns exactly 10. -/
theorem pid_compute_spec (g : PIDGains) (st : PIDState) (cur tgt dt now : ℚ) :
    (dt ≤ 0 → PIDController.compute g st cur tgt dt now = (st, 0)) ∧
    (0 < dt →
      PIDController.compute g st cur tgt dt now =
        ({ integral := npClip (st.integral + (tgt - cur) * dt)
             (-g.max_integral) g.max_integral,
           last_error := tgt - cur, last_time := now, first_run := false },
         npClip (g.kp * (tgt - cur) +
           g.ki * npClip (st.integral + (tgt - cur) * dt)
             (-g.max_integral) g.max_integral +
           (if st.first_run then 0
            else npClip (g.kd * ((tgt - cur) - st.last_error) / dt)
              (-g.max_derivative) g.max_derivative))
           (-g.max_output) g.max_output)) ∧
    (PIDController.compute proportionalGains PIDState.fresh 0 10 (1/10) 0).2
      = 10 := by
  refine ⟨fun h => ?_, fun h => ?_, ?_⟩
  · simp [PIDController.compute, h]
  · have h' : ¬ dt ≤ 0 := not_le.mpr h
    cases hf : st.first_run <;>
      simp [PIDController.compute, h', hf]
  · norm_num [PIDController.compute, proportionalGains, PIDState.fresh,
      npClip]

/-- Witness for C4: at dt = 0 the state is untouched and 0 is returned; the
pure proportional instance returns exactly 10. -/
theorem pid_compute_spec_witness :
    PIDController.compute proportionalGains PIDState.fresh 0 10 0 0 =
      (PIDState.fresh, 0) ∧
    (PIDController.compute proportionalGains PIDState.fresh 0 10 (1/10) 0).2
      = 10 :=
  ⟨(pid_compute_spec proportionalGains PIDState.fresh 0 10 0 0).1
      (by norm_num),
   (pid_compute_spec proportionalGains PIDState.fresh 0 10 (1/10) 0).2.2⟩

/-- C6 counterexample.  The yaw error computation performs a single ±360
wrap step, so for current = 0°, target = 720° it returns 360, which is
neither inside [-180, 180] nor of magnitude at most 180 — the claimed
property fails for that pair of angles. -/
theorem yaw_error_counterexample :
    calculateYawError 0 720 = 360 ∧
    ¬ (-180 ≤ calculateYawError 0 720 ∧ calculateYawError 0 720 ≤ 180) := by
  norm_num [calculateYawError]

/-- C6 amended.  Whenever the raw difference target − current has magnitude
at most 540 (which covers all angle pairs reported in [-180, 180] and single-
turn targets), the computed yaw error lies in [-180, 180] and is congruent to
target − current modulo 360; in particular current = −170°, target = 170°
gives −20°, and current = 0°, target = 180° gives magnitude exactly 180. -/
theorem yaw_error_single_wrap (cur tgt : ℚ) (h : |tgt - cur| ≤ 540) :
    ((-180 ≤ calculateYawError cur tgt ∧ calculateYawError cur tgt ≤ 180) ∧
      ∃ k : ℤ, calculateYawError cur tgt = (tgt - cur) + 360 * k) ∧
    calculateYawError (-170) 170 = -20 ∧
    |calculateYawError 0 180| = 180 := by
  rw [abs_le] at h
  refine ⟨?_, by norm_num [calculateYawError], by norm_num [calculateYawError]⟩
  unfold calculateYawError
  by_cases h1 : tgt - cur > 180
  · simp only [h1, if_pos]
    exact ⟨⟨by linarith, by linarith⟩, ⟨-1, by push_cast; ring⟩⟩
  · by_cases h2 : tgt - cur < -180
    · simp only [h1, h2, if_neg, if_pos, not_false_iff]
      exact ⟨⟨by linarith, by linarith⟩, ⟨1, by push_cast; ring⟩⟩
    · simp only [h1, h2, if_neg, not_false_iff]
      exact ⟨⟨by linarith, by linarith⟩, ⟨0, by push_cast; ring⟩⟩

/-- Witness for C6 amended: the (−170°, 170°) pair is covered by the
hypothesis and yields −20°. -/
theorem yaw_error_single_wrap_witness :
    |(170 : ℚ) - (-170)| ≤ 540 ∧ calculateYawError (-170) 170 = -20 :=
  ⟨by norm_num,
   (yaw_error_single_wrap (-170) 170 (by norm_num)).2.1⟩

/-- C8.  The altitude experiment validator reports an error exactly when the
cycle count is ≤ 0, the target height is ≤ the final height, the descent
speed is ≤ 0, the hover duration is negative, the target height exceeds
500 cm, or the final height is below 5 cm; any configuration whose target
height is not strictly above its final height yields at least one error, and
the default configuration yields none. -/
theorem validate_parameters_spec (p : ExperimentParams) :
    (validate_parameters p ≠ [] ↔
      (p.experiment_cycles ≤ 0 ∨ p.target_height ≤ p.final_height ∨
        p.descent_speed ≤ 0 ∨ p.hover_duration < 0 ∨
        500 < p.target_height ∨ p.final_height < 5)) ∧
    (p.target_height ≤ p.final_height → validate_parameters p ≠ []) ∧
    validate_parameters defaultExperimentParams = [] := by
  have hiff : validate_parameters p ≠ [] ↔
      (p.experiment_cycles ≤ 0 ∨ p.target_height ≤ p.final_height ∨
        p.descent_speed ≤ 0 ∨ p.hover_duration < 0 ∨
        500 < p.target_height ∨ p.final_height < 5) := by
    unfold validate_parameters
    split_ifs <;> simp_all
  exact ⟨hiff, fun h => hiff.mpr (Or.inr (Or.inl h)),
    by norm_num [validate_parameters, defaultExperimentParams]⟩

/-- Witness for C8: the default configuration passes with no errors, and
lowering the target height to 20 cm (below the 30 cm final height) produces
at least one error string. -/
theorem validate_parameters_spec_witness :
    validate_parameters defaultExperimentParams = [] ∧
    validate_parameters
      { defaultExperimentParams with target_height := 20 } ≠ [] :=
  ⟨(validate_parameters_spec defaultExperimentParams).2.2,
   (validate_parameters_spec _).2.1 (by norm_num [defaultExperimentParams])⟩

/-- C7.  The square-trajectory generator centered at the origin produces
exactly 5 waypoints: the corners (size/2, size/2), (−size/2, size/2),
(−size/2, −size/2), (size/2, −size/2) in order followed by a repeat of the
first corner, each holding for 0.5 s, and consecutive waypoints differ by
exactly `size` in one axis and 0 in the other. -/
theorem square_trajectory_spec (size height speed tol : ℚ) (hsize : 0 < size) :
    (squareWaypoints size 0 0 height speed tol).length = 5 ∧
    (squareWaypoints size 0 0 height speed tol).map
        (fun w => (w.x_cm, w.y_cm)) =
      [(size/2, size/2), (-(size/2), size/2), (-(size/2), -(size/2)),
       (size/2, -(size/2)), (size/2, size/2)] ∧
    (∀ w ∈ squareWaypoints size 0 0 height speed tol, w.hold_time_s = 1/2) ∧
    List.Chain' (axisAlignedStep size)
      ((squareWaypoints size 0 0 height speed tol).map
        (fun w => (w.x_cm, w.y_cm))) := by
  have hmap : (squareWaypoints size 0 0 height speed tol).map
      (fun w => (w.x_cm, w.y_cm)) =
      [(size/2, size/2), (-(size/2), size/2), (-(size/2), -(size/2)),
       (size/2, -(size/2)), (size/2, size/2)] := by
    simp [squareWaypoints]
  have habs1 : |(-(size/2)) - size/2| = size := by
    rw [show -(size/2) - size/2 = -size by ring, abs_neg, abs_of_pos hsize]
  have habs2 : |size/2 - -(size/2)| = size := by
    rw [show size/2 - -(size/2) = size by ring, abs_of_pos hsize]
  refine ⟨by simp [squareWaypoints], hmap, by simp [squareWaypoints], ?_⟩
  rw [hmap]
  refine List.chain'_cons.mpr ⟨Or.inl ⟨habs1, rfl⟩, ?_⟩
  refine List.chain'_cons.mpr ⟨Or.inr ⟨rfl, habs1⟩, ?_⟩
  refine List.chain'_cons.mpr ⟨Or.inl ⟨habs2, rfl⟩, ?_⟩
  refine List.chain'_cons.mpr ⟨Or.inr ⟨rfl, habs2⟩, ?_⟩
  exact List.chain'_singleton _

/-- Witness for C7: with size = 120 cm the generated list has 5 entries and
its corner coordinates are (60, 60), (−60, 60), (−60, −60), (60, −60)
followed by (60, 60) again. -/
theorem square_trajectory_spec_witness :
    (squareWaypoints 120 0 0 100 20 15).length = 5 ∧
    (squareWaypoints 120 0 0 100 20 15).map (fun w => (w.x_cm, w.y_cm)) =
      [(60, 60), (-60, 60), (-60, -60), (60, -60), (60, 60)] := by
  have h := square_trajectory_spec 120 100 20 15 (by norm_num)
  refine ⟨h.1, ?_⟩
  have h2 := h.2.1
  norm_num at h2
  exact h2

/-- C3.  With safety checks enabled, an 'up' command is consumed by the
translation branch of `check_flight_safety`, so the dedicated altitude
branch (`elif command == 'up'`) is unreachable and the configured altitude
limit is never enforced: with a speed limit of 500 and an altitude limit of
100, an ascent of 200 (battery healthy at 50 %) passes the gate even though
it exceeds the altitude limit, and in general the gate's outcome does not
depend on the altitude limit at all. -/
theorem check_flight_safety_altitude_unreachable :
    check_flight_safety deadAltCfg "up" (some 200) 50 = Except.ok true ∧
    (200 : ℚ) > deadAltCfg.flight_altitude_limit ∧
    (50 : ℚ) > deadAltCfg.battery_critical_threshold ∧
    ∀ (cfg : SafetyConfig) (a : ℚ) (command : String) (value : Option ℚ)
      (battery : ℚ),
      check_flight_safety { cfg with flight_altitude_limit := a } command
        value battery = check_flight_safety cfg command value battery := by
  refine ⟨by norm_num [check_flight_safety, deadAltCfg, pyTruthy],
    by norm_num [deadAltCfg], by norm_num [deadAltCfg], ?_⟩
  intro cfg a command value battery
  by_cases he : cfg.enable_safety_checks = false
  · simp [check_flight_safety, he]
  · by_cases h1 : command ∈ ["up", "down", "left", "right", "forward", "back"]
    · simp [check_flight_safety, he, h1]
    · by_cases h2 : command ∈ ["cw", "ccw"]
      · simp [check_flight_safety, he, h1, h2]
      · have h3 : command ≠ "up" := by
          intro hup
          exact h1 (hup ▸ List.mem_cons_self _ _)
        simp [check_flight_safety, he, h1, h2, h3]

/-- C9.  A controller whose state is not INACTIVE (ACTIVE, ERROR or
EMERGENCY_STOP) rejects `activate()`: the call returns False and the
controller — in particular its state — is left unchanged, since the
activation hook only runs from INACTIVE. -/
theorem activate_requires_inactive (c : BController)
    (h : c.state ≠ ControllerState.inactive) :
    c.activate = (c, false) := by
  unfold BController.activate
  rw [if_neg h]

/-- Witness for C9: the concrete ACTIVE controller is rejected unchanged. -/
theorem activate_requires_inactive_witness :
    activePosController.state ≠ ControllerState.inactive ∧
    activePosController.activate = (activePosController, false) :=
  ⟨by decide, activate_requires_inactive activePosController (by decide)⟩

/-- Replacing a registry entry leaves lookups of other names unchanged. -/
theorem lookupCtrl_updateCtrl_ne (rs : List (String × BController))
    (n p : String) (c : BController) (h : p ≠ n) :
    lookupCtrl (updateCtrl rs n c) p = lookupCtrl rs p := by
  induction rs with
  | nil => rfl
  | cons q rest ih =>
    by_cases hq : q.1 = n
    · have hnp : ¬ n = p := fun he => h he.symm
      have hqp : ¬ q.1 = p := fun he => hnp (hq.symm.trans he)
      simp [updateCtrl, lookupCtrl, hq, hnp, hqp, ih]
    · simp [updateCtrl, lookupCtrl, hq, ih]

/-- Replacing a present registry entry makes its lookup return the new
controller. -/
theorem lookupCtrl_updateCtrl_self (rs : List (String × BController))
    (n : String) (c c0 : BController) (h : lookupCtrl rs n = some c0) :
    lookupCtrl (updateCtrl rs n c) n = some c := by
  induction rs with
  | nil => simp [lookupCtrl] at h
  | cons q rest ih =>
    by_cases hq : q.1 = n
    · simp [updateCtrl, lookupCtrl, hq]
    · have h' : lookupCtrl rest n = some c0 := by
        simpa [lookupCtrl, hq] using h
      simp [updateCtrl, lookupCtrl, hq, ih h']

/-- After `deactivateCurrent` no controller is active. -/
theorem deactivateCurrent_active (m : CManager) :
    (deactivateCurrent m).active_controller = none := by
  unfold deactivateCurrent
  cases h : m.active_controller with
  | none => exact h
  | some nm =>
    dsimp only
    cases hc : lookupCtrl m.controllers nm <;> rfl

/-- `deactivateCurrent` applies `deactivate` to the registry entry of the
previously active controller. -/
theorem deactivateCurrent_controllers (m : CManager) (pname : String)
    (pc : BController) (h1 : m.active_controller = some pname)
    (h2 : lookupCtrl m.controllers pname = some pc) :
    lookupCtrl (deactivateCurrent m).controllers pname =
      some (pc.deactivate).1 := by
  unfold deactivateCurrent
  rw [h1]
  dsimp only
  rw [h2]
  exact lookupCtrl_updateCtrl_self _ _ _ _ h2

/-- Evaluation of the 4-failing-cycles run: the mode is still POSITION, the
active controller is still "position" with error counter 0, and the
controller itself has been put into the ERROR state by `update`. -/
theorem fallbackAfter4_eval :
    fallbackAfter4.current_control_mode = ControlMode.position ∧
    fallbackAfter4.active_controller = some "position" ∧
    lookupErr fallbackAfter4.controller_errors "position" = some 0 ∧
    (lookupCtrl fallbackAfter4.controllers "position").map
      (fun c => c.state) = some ControllerState.error := by
  have hpm : ControlMode.position ≠ ControlMode.manual := by decide
  have hpe : ControlMode.position ≠ ControlMode.emergency := by decide
  norm_num [fallbackAfter4, execute_control_cycle, perform_safety_checks,
    fallbackStart, defaultManagerConfig, goodSensorData, raisingController,
    attitudeIdleController, BController.updateResult, BController.update,
    lookupCtrl, updateCtrl, lookupErr, setErr, incErr, hpm, hpe]

/-- C2 counterexample.  With the default configuration (auto-fallback on,
fallback "attitude" registered) and the active "position" controller whose
`compute_control` raises on every call, after 4 consecutive control cycles
the manager's mode is still POSITION (not ATTITUDE), the active controller
is still "position", and the per-controller error counter is still 0 — the
claimed automatic fallback does not happen, because `BaseController.update`
catches the exception itself. -/
theorem controller_fallback_counterexample :
    fallbackAfter4.current_control_mode = ControlMode.position ∧
    fallbackAfter4.active_controller = some "position" ∧
    lookupErr fallbackAfter4.controller_errors "position" = some 0 ∧
    ¬ (fallbackAfter4.current_control_mode = ControlMode.attitude ∧
       fallbackAfter4.active_controller = some "attitude") := by
  refine ⟨fallbackAfter4_eval.1, fallbackAfter4_eval.2.1,
    fallbackAfter4_eval.2.2.1, fun h => ?_⟩
  exact absurd (h.1.symm.trans fallbackAfter4_eval.1) (by decide)

/-- C2 amended.  `BaseController.update` never lets an exception escape (its
body is wrapped in try/except, so the manager-side error branch is dead
code): a controller whose `compute_control` raises is put into the ERROR
state by `update` itself, which returns None, and after 4 consecutive such
cycles the manager's per-controller error counter is still 0, its control
mode and active controller are unchanged, and no fallback to "attitude"
occurs. -/
theorem controller_exception_no_fallback :
    (∀ (c : BController) (sd : SensorData) (now : ℚ),
      ∃ r, c.updateResult sd now = Except.ok r) ∧
    fallbackAfter4.current_control_mode = ControlMode.position ∧
    fallbackAfter4.active_controller = some "position" ∧
    lookupErr fallbackAfter4.controller_errors "position" = some 0 ∧
    (lookupCtrl fallbackAfter4.controllers "position").map
      (fun c => c.state) = some ControllerState.error :=
  ⟨fun c sd now => ⟨c.update sd now, rfl⟩, fallbackAfter4_eval.1,
    fallbackAfter4_eval.2.1, fallbackAfter4_eval.2.2.1,
    fallbackAfter4_eval.2.2.2⟩

/-- C10.  A failed mode switch is not atomic: if `switch_control_mode` is
called with one of the four flight modes and the resolved controller is
missing from the registry or fails to activate, the call returns False, yet
the previously active controller has already been deactivated, the manager
has no active controller, and `current_control_mode` has already been set to
the requested mode. -/
theorem switch_mode_failure_not_atomic (m : CManager) (mode : ControlMode)
    (cname : Option String) (tname : String)
    (hmode : mode = ControlMode.attitude ∨ mode = ControlMode.position ∨
      mode = ControlMode.velocity ∨ mode = ControlMode.trajectory)
    (hres : resolveTargetName mode cname = some tname)
    (hfail : lookupCtrl (deactivateCurrent m).controllers tname = none ∨
      ∃ tc, lookupCtrl (deactivateCurrent m).controllers tname = some tc ∧
        tc.activate.2 = false) :
    (switch_control_mode m mode cname).2 = false ∧
    (switch_control_mode m mode cname).1.active_controller = none ∧
    (switch_control_mode m mode cname).1.current_control_mode = mode ∧
    ∀ pname pc, m.active_controller = some pname →
      lookupCtrl m.controllers pname = some pc → pname ≠ tname →
      lookupCtrl (switch_control_mode m mode cname).1.controllers pname =
        some (pc.deactivate).1 := by
  have hm1 : ¬ mode = ControlMode.manual := by
    rcases hmode with h | h | h | h <;> subst h <;> decide
  have hm2 : ¬ mode = ControlMode.emergency := by
    rcases hmode with h | h | h | h <;> subst h <;> decide
  by_cases ht : tname = ""
  · have hcomp : switch_control_mode m mode cname =
        ({ deactivateCurrent m with current_control_mode := mode }, false) := by
      simp [switch_control_mode, hres, hm1, hm2, ht]
    rw [hcomp]
    refine ⟨rfl, deactivateCurrent_active m, rfl, ?_⟩
    intro pname pc h1 h2 _
    exact deactivateCurrent_controllers m pname pc h1 h2
  · rcases hfail with hl | ⟨tc, hlk, hact⟩
    · have hcomp : switch_control_mode m mode cname =
          ({ deactivateCurrent m with current_control_mode := mode }, false) := by
        simp [switch_control_mode, hres, hm1, hm2, ht, hl]
      rw [hcomp]
      refine ⟨rfl, deactivateCurrent_active m, rfl, ?_⟩
      intro pname pc h1 h2 _
      exact deactivateCurrent_controllers m pname pc h1 h2
    · have hcomp : switch_control_mode m mode cname =
          ({ deactivateCurrent m with
              current_control_mode := mode
              controllers := updateCtrl (deactivateCurrent m).controllers
                tname (tc.activate).1 }, false) := by
        simp [switch_control_mode, hres, hm1, hm2, ht, hlk, hact]
      rw [hcomp]
      refine ⟨rfl, deactivateCurrent_active m, rfl, ?_⟩
      intro pname pc h1 h2 h3
      show lookupCtrl (updateCtrl (deactivateCurrent m).controllers tname
        (tc.activate).1) pname = some (pc.deactivate).1
      rw [lookupCtrl_updateCtrl_ne _ _ _ _ h3]
      exact deactivateCurrent_controllers m pname pc h1 h2

/-- Witness for C10: switching the concrete manager (active "position"
controller, no "attitude" entry registered) to ATTITUDE mode returns False
but deactivates the position controller, clears the active slot and leaves
the mode field at ATTITUDE. -/
theorem switch_mode_failure_not_atomic_witness :
    (switch_control_mode switchFailManager ControlMode.attitude none).2
        = false ∧
    (switch_control_mode switchFailManager
        ControlMode.attitude none).1.active_controller = none ∧
    (switch_control_mode switchFailManager
        ControlMode.attitude none).1.current_control_mode
        = ControlMode.attitude ∧
    lookupCtrl (switch_control_mode switchFailManager
        ControlMode.attitude none).1.controllers "position" =
      some (activePosController.deactivate).1 := by
  have h := switch_mode_failure_not_atomic switchFailManager
    ControlMode.attitude none "attitude" (Or.inl rfl) rfl (Or.inl rfl)
  exact ⟨h.1, h.2.1, h.2.2.1,
    h.2.2.2 "position" activePosController rfl rfl (by decide)⟩

/-- The final throttle limiting of the ADRC controller maps every rational
into [0.3, 0.7]. -/
theorem throttleLimit_mem (x : ℚ) :
    3/10 ≤ throttleLimit x ∧ throttleLimit x ≤ 7/10 := by
  unfold throttleLimit
  by_cases h1 : x < 3/10
  · simp only [h1, if_pos]
    norm_num
  · simp only [h1, if_neg, not_false_iff]
    by_cases h2 : x > 7/10
    · simp only [h2, if_pos]
      norm_num
    · simp only [h2, if_neg, not_false_iff]
      constructor <;> linarith [not_lt.mp h1, not_lt.mp h2]

/-- One ADRC update always emits a thrust in [0.3, 0.7], whatever the
parameters, the transcendental interpretation, the internal state, the
states and the step size. -/
theorem adrc_update_thrust (p : ADRCParams) (ops : TransOps) (st : ADRCState)
    (des : DesiredState) (cur : CurrentState) (dt now : ℚ) :
    3/10 ≤ (ADRC.update p ops st des cur dt now).2.thrust ∧
    (ADRC.update p ops st des cur dt now).2.thrust ≤ 7/10 :=
  throttleLimit_mem _

/-- C5.  The ADRC landing controller's `update` clamps whatever value the
selected throttle-mapping mode computes into [0.3, 0.7] before returning it:
for every desired/current state pair and every dt > 0 the emitted thrust lies
in [0.3, 0.7], and over any sequence of control ticks every emitted thrust
lies in [0.3, 0.7] (in the exact-rational model the output is always a
well-defined rational, for every interpretation of the transcendental
functions). -/
theorem adrc_thrust_clamped (p : ADRCParams) (ops : TransOps)
    (st : ADRCState) :
    (∀ (des : DesiredState) (cur : CurrentState) (dt now : ℚ), 0 < dt →
      3/10 ≤ (ADRC.update p ops st des cur dt now).2.thrust ∧
      (ADRC.update p ops st des cur dt now).2.thrust ≤ 7/10) ∧
    ∀ (ticks : List (DesiredState × CurrentState × ℚ)) (out : ControlOutput),
      out ∈ (ADRC.runTicks p ops st ticks).2 →
      3/10 ≤ out.thrust ∧ out.thrust ≤ 7/10 := by
  constructor
  · intro des cur dt now _
    exact adrc_update_thrust p ops st des cur dt now
  · intro ticks
    induction ticks generalizing st with
    | nil =>
      intro out h
      simp [ADRC.runTicks] at h
    | cons t rest ih =>
      intro out h
      simp only [ADRC.runTicks, List.mem_cons] at h
      rcases h with h | h
      · subst h
        exact adrc_update_thrust p ops st t.1 t.2.1 t.2.2 0
      · exact ih _ out h

/-- Witness for C5: at dt = 1/50 from rest near hover, with the trivial
transcendental interpretation, the emitted thrust lies in [0.3, 0.7]. -/
theorem adrc_thrust_clamped_witness :
    0 < (1 : ℚ)/50 ∧
    3/10 ≤ (ADRC.update defaultADRCParams TransOps.trivial ADRCState.init
      zeroDesired zeroCurrent (1/50) 0).2.thrust ∧
    (ADRC.update defaultADRCParams TransOps.trivial ADRCState.init
      zeroDesired zeroCurrent (1/50) 0).2.thrust ≤ 7/10 :=
  ⟨by norm_num,
   ((adrc_thrust_clamped defaultADRCParams TransOps.trivial ADRCState.init).1
     zeroDesired zeroCurrent (1/50) 0 (by norm_num)).1,
   ((adrc_thrust_clamped defaultADRCParams TransOps.trivial ADRCState.init).1
     zeroDesired zeroCurrent (1/50) 0 (by norm_num)).2⟩

end RMTT
